import Mathlib

/-!
Verification of the azureml-examples repository specification.

This file shallowly embeds the parts of the repository that the claims
concern: the fine-tuning notebook
(`sdk/python/jobs/finetuning/standalone/model-as-a-platform/text-generation/
text_generation_with_model_as_a_platform.ipynb`), the "Working with Data"
notebook, and the two GitHub Actions workflow files.  Pure configuration
data (YAML, cell call structure) is embedded as Lean data; the notebook
control flow (the status poll loop, the try/except existence checks, the
final inference cell) is embedded as executable Lean functions over
explicit inputs representing the external SDK's responses.
-/

namespace AzuremlExamples

/-! ## The status poll loop of the fine-tuning notebook

Source (cell "Wait for the above job to complete successfully"):

    status = workspace_ml_client.jobs.get(created_job.name).status
    (then the cell does an `import time`)
    while True:
        status = workspace_ml_client.jobs.get(created_job.name).status
        print(f"Current job status: \x7bstatus\x7d")
        if status in ["Failed", "Completed", "Canceled"]:
            print("Job has finished with status: \x7b0\x7d".format(status))
            break
        else:
            print("Job is still running. Checking again in 30 seconds.")
            time.sleep(30)

We model the sequence of statuses returned by successive
`jobs.get(created_job.name).status` queries inside the loop as a stream
`statuses : Nat → String` (query `i` returns `statuses i`).  The loop is
modelled fuel-indexed: `pollRun statuses fuel i` runs up to `fuel` more
iterations starting from query index `i`, returning `some (s, t)` when the
loop breaks with final status `s` after a total of `t` seconds spent in
`time.sleep`, and `none` when the loop is still running after `fuel`
iterations.
-/

/-- The terminal status list of the poll loop, exactly as in the source:
`["Failed", "Completed", "Canceled"]`. -/
def terminalStatuses : List String := ["Failed", "Completed", "Canceled"]

/-- `status in ["Failed", "Completed", "Canceled"]` from the source. -/
def isTerminal (s : String) : Bool := terminalStatuses.contains s

/-- Fixed sleep interval of the loop, in seconds (`time.sleep(30)`). -/
def sleepInterval : Nat := 30

/-- One fuel-indexed execution of the `while True` poll loop.  Iteration:
re-query the status; if it is terminal, break with the status and the total
sleep time accumulated so far; otherwise sleep `sleepInterval` seconds
and iterate. -/
def pollRun (statuses : Nat → String) : Nat → Nat → Option (String × Nat)
  | 0, _ => none
  | fuel + 1, i =>
    let s := statuses i
    if isTerminal s then some (s, sleepInterval * i)
    else pollRun statuses fuel (i + 1)

/-- The loop state after `fuel` iterations is "exited" iff `pollRun`
returned a value. -/
def pollExited (statuses : Nat → String) (fuel : Nat) : Bool :=
  (pollRun statuses fuel 0).isSome

theorem pollRun_some_iff (statuses : Nat → String) :
    ∀ fuel i s t, pollRun statuses fuel i = some (s, t) ↔
      ∃ j, i ≤ j ∧ j < i + fuel ∧ statuses j = s ∧ isTerminal s = true ∧
        t = sleepInterval * j ∧
        (∀ k, i ≤ k → k < j → isTerminal (statuses k) = false) := by
  intro fuel
  induction fuel with
  | zero =>
    intro i s t
    simp [pollRun]
    intro j hij hji
    omega
  | succ n ih =>
    intro i s t
    rw [pollRun]
    by_cases hterm : isTerminal (statuses i) = true
    · simp only [hterm, if_true]
      constructor
      · intro h
        injection h with h
        injection h with h1 h2
        exact ⟨i, le_refl i, by omega, h1, h1 ▸ hterm, h2.symm, fun k hk1 hk2 => absurd hk1 (by omega)⟩
      · rintro ⟨j, hij, hjn, hst, hT, ht, hmin⟩
        rcases Nat.eq_or_lt_of_le hij with heq | hlt
        · subst heq; rw [hst, ht]
        · exact absurd (hmin i (le_refl i) hlt) (by simp [hterm])
    · simp only [hterm, Bool.false_eq_true, if_false]
      rw [ih (i + 1) s t]
      constructor
      · rintro ⟨j, hij, hjn, hst, hT, ht, hmin⟩
        refine ⟨j, by omega, by omega, hst, hT, ht, fun k hk1 hk2 => ?_⟩
        rcases Nat.eq_or_lt_of_le hk1 with heq | hlt
        · subst heq; simpa using hterm
        · exact hmin k (by omega) hk2
      · rintro ⟨j, hij, hjn, hst, hT, ht, hmin⟩
        have hij' : i + 1 ≤ j := by
          rcases Nat.eq_or_lt_of_le hij with heq | hlt
          · subst heq; exact absurd (hst ▸ hT) (by simpa using hterm)
          · omega
        exact ⟨j, hij', by omega, hst, hT, ht, fun k hk1 hk2 => hmin k (by omega) hk2⟩

theorem pollRun_none_iff (statuses : Nat → String) :
    ∀ fuel i, pollRun statuses fuel i = none ↔
      ∀ k, i ≤ k → k < i + fuel → isTerminal (statuses k) = false := by
  intro fuel
  induction fuel with
  | zero =>
    intro i
    simp [pollRun]
    intro k h1 h2; omega
  | succ n ih =>
    intro i
    rw [pollRun]
    by_cases hterm : isTerminal (statuses i) = true
    · simp only [hterm, if_true]
      constructor
      · intro h; exact absurd h (by simp)
      · intro h
        exact absurd (h i (le_refl i) (by omega)) (by simp [hterm])
    · simp only [hterm, Bool.false_eq_true, if_false]
      rw [ih (i + 1)]
      constructor
      · intro h k hk1 hk2
        rcases Nat.eq_or_lt_of_le hk1 with heq | hlt
        · subst heq; simpa using hterm
        · exact h k (by omega) (by omega)
      · intro h k hk1 hk2
        exact h k (by omega) (by omega)

/-! ## Statement-level embedding of the poll-loop cell and the failure-check cell

For the claim about the stray `break`, the two cells are embedded
syntactically.  `PyStmt` is a minimal Python statement AST covering the
constructs these cells use; `seq` is statement sequencing. -/

inductive PyStmt where
  | assign (lhs rhs : String)
  | prin (msg : String)
  | sleep (seconds : Nat)
  | brk
  | ifIn (var : String) (vals : List String) (thenB elseB : PyStmt)
  | whileTrue (body : PyStmt)
  | seq (a b : PyStmt)
  | skip
deriving DecidableEq, Repr

/-- `breakWithin inLoop s` is `true` iff `s` contains a `break` statement
that is not enclosed by any loop, given that `s` itself sits inside a loop
iff `inLoop`. -/
def breakWithin (inLoop : Bool) : PyStmt → Bool
  | .brk => !inLoop
  | .ifIn _ _ t e => breakWithin inLoop t || breakWithin inLoop e
  | .whileTrue b => breakWithin true b
  | .seq a b => breakWithin inLoop a || breakWithin inLoop b
  | _ => false

/-- `true` iff the statement contains a `break` outside any enclosing loop:
in Python such a statement is a `SyntaxError`, never valid control flow. -/
def breakOutsideLoop (s : PyStmt) : Bool := breakWithin false s

/-- The list tested by a top-level `if var in [...]`. -/
def topIfVals : PyStmt → List String
  | .ifIn _ v _ _ => v
  | _ => []

/-- The then-branch of a top-level `if`. -/
def thenBranch : PyStmt → PyStmt
  | .ifIn _ _ t _ => t
  | _ => .skip

/-- `true` iff the statement sequence ends in a `break`. -/
def endsWithBreak : PyStmt → Bool
  | .brk => true
  | .seq _ b => endsWithBreak b
  | _ => false

/-- `true` iff the statement contains a `print`. -/
def containsPrint : PyStmt → Bool
  | .prin _ => true
  | .ifIn _ _ t e => containsPrint t || containsPrint e
  | .whileTrue b => containsPrint b
  | .seq a b => containsPrint a || containsPrint b
  | _ => false

/-- The poll-loop cell of the fine-tuning notebook, as a `PyStmt`. -/
def pollLoopCell : PyStmt :=
  .seq (.assign "status" "workspace_ml_client.jobs.get(created_job.name).status")
    (.whileTrue
      (.seq (.assign "status" "workspace_ml_client.jobs.get(created_job.name).status")
        (.seq (.prin "Current job status: ...")
          (.ifIn "status" ["Failed", "Completed", "Canceled"]
            (.seq (.prin "Job has finished with status: ...") .brk)
            (.seq (.prin "Job is still running. Checking again in 30 seconds.")
              (.sleep 30))))))

/-- The failure-check cell that immediately follows the poll loop:

    if status in ["Failed", "Canceled"]:
        print("Job did not finish successfully. So no model to deploy. ...")
        break

The cell is a single top-level `if`; the `break` has no enclosing loop. -/
def failureCheckCell : PyStmt :=
  .ifIn "status" ["Failed", "Canceled"]
    (.seq (.prin "Job did not finish successfully. So no model to deploy. JobStatus: ...")
      .brk)
    .skip

/-- C1: when the polled terminal status is "Failed" or "Canceled", the
failure-check cell reports the failure (a print) and then halts via a
`break` statement; that `break` lies outside any enclosing loop (so it is
not valid control flow — a `SyntaxError` in Python), unlike the `break` of
the poll-loop cell, which is properly enclosed. -/
theorem failure_check_break_outside_loop :
    topIfVals failureCheckCell = ["Failed", "Canceled"] ∧
    containsPrint (thenBranch failureCheckCell) = true ∧
    endsWithBreak (thenBranch failureCheckCell) = true ∧
    breakOutsideLoop failureCheckCell = true ∧
    breakOutsideLoop pollLoopCell = false := by
  refine ⟨rfl, rfl, rfl, rfl, rfl⟩

/-- C2: whenever the poll loop exits (`pollRun … = some (s, t)`), the final
status `s` is terminal (one of "Failed", "Completed", "Canceled"), it is
the first terminal status queried, every earlier poll observed a
non-terminal status, and the loop slept exactly 30 seconds per non-terminal
poll; so the loop is never exited while the last observed status is
non-terminal. -/
theorem poll_loop_exits_only_on_terminal (statuses : Nat → String)
    (fuel : Nat) (s : String) (t : Nat)
    (h : pollRun statuses fuel 0 = some (s, t)) :
    isTerminal s = true ∧
    ∃ j, j < fuel ∧ statuses j = s ∧ t = 30 * j ∧
      ∀ k, k < j → isTerminal (statuses k) = false := by
  rw [pollRun_some_iff] at h
  obtain ⟨j, _, hj, hst, hT, ht, hmin⟩ := h
  exact ⟨hT, j, by omega, hst, ht, fun k hk => hmin k (Nat.zero_le k) hk⟩

/-- Witness for C2 on the concrete status stream Running, Running,
Completed, Completed, …: the loop exits with "Completed" after two
30-second sleeps. -/
theorem poll_loop_exits_only_on_terminal_witness :
    isTerminal "Completed" = true ∧
    ∃ j, j < 3 ∧ (fun n => if n < 2 then "Running" else "Completed") j = "Completed" ∧
      60 = 30 * j ∧
      ∀ k, k < j →
        isTerminal ((fun n => if n < 2 then "Running" else "Completed") k) = false :=
  poll_loop_exits_only_on_terminal (fun n => if n < 2 then "Running" else "Completed")
    3 "Completed" 60 (by decide)

/-- C4: the poll loop enforces no timeout or iteration bound: it exits at
some fuel level iff some poll returns a terminal status, and if no poll
ever returns a terminal status then for every fuel level the loop is still
running (it runs forever). -/
theorem poll_loop_no_timeout (statuses : Nat → String) :
    ((∃ fuel, pollExited statuses fuel = true) ↔
      (∃ n, isTerminal (statuses n) = true)) ∧
    ((∀ n, isTerminal (statuses n) = false) →
      ∀ fuel, pollExited statuses fuel = false) := by
  constructor
  · constructor
    · rintro ⟨fuel, h⟩
      unfold pollExited at h
      rw [Option.isSome_iff_exists] at h
      obtain ⟨⟨s, t⟩, hsome⟩ := h
      rw [pollRun_some_iff] at hsome
      obtain ⟨j, _, _, hst, hT, _⟩ := hsome
      exact ⟨j, hst ▸ hT⟩
    · rintro ⟨n, hn⟩
      refine ⟨n + 1, ?_⟩
      unfold pollExited
      cases hp : pollRun statuses (n + 1) 0 with
      | some v => rfl
      | none =>
        rw [pollRun_none_iff] at hp
        have := hp n (Nat.zero_le n) (by omega)
        rw [hn] at this
        exact absurd this (by simp)
  · intro hall fuel
    unfold pollExited
    cases hp : pollRun statuses fuel 0 with
    | none => rfl
    | some v =>
      obtain ⟨s, t⟩ := v
      rw [pollRun_some_iff] at hp
      obtain ⟨j, _, _, hst, hT, _⟩ := hp
      rw [← hst, hall j] at hT
      exact absurd hT (by simp)

/-! ## Data-asset existence checks

Three notebook cells follow the try/except get-or-create pattern: the
"titanic" cell of the Working-with-Data notebook and the train/validation
dataset cells of the fine-tuning notebook.  `Data` mirrors the
`azure.ai.ml.entities.Data` constructor arguments used by the cells.  The
external SDK is modelled explicitly: `data_get` looks the (name, version)
pair up in the workspace's registered-asset store, except that an
environmental fault (authentication or network failure), injected as
`envFault`, makes it raise regardless of the store's contents. -/

structure Data where
  path : String
  type : String
  description : String
  name : String
  version : String
deriving DecidableEq, Repr

/-- Kinds of exception the SDK's get can raise: absence of the asset, or
environmental faults unrelated to absence. -/
inductive PyError where
  | resourceNotFound
  | authenticationError
  | networkError
deriving DecidableEq, Repr

/-- The workspace's registered data assets. -/
abbrev AssetStore := List Data

/-- `ml_client.data.get(name, version)`: raises the injected environmental
fault if any; otherwise returns the registered asset with that name and
version, raising `resourceNotFound` when there is none. -/
def data_get (envFault : Option PyError) (store : AssetStore) (n v : String) :
    Except PyError Data :=
  match envFault with
  | some e => .error e
  | none =>
    match store.find? (fun a => a.name == n && a.version == v) with
    | some a => .ok a
    | none => .error .resourceNotFound

/-- `ml_client.data.create_or_update(d)`: registers `d` (replacing any
asset with the same name and version) and returns the registered asset. -/
def data_create_or_update (store : AssetStore) (d : Data) : AssetStore × Data :=
  (d :: store.filter (fun a => !(a.name == d.name && a.version == d.version)), d)

/-- `true` iff the get call returned without raising. -/
def getReturned (r : Except PyError Data) : Bool :=
  match r with
  | .ok _ => true
  | .error _ => false

/-- Result of running one get-or-create cell: the store afterwards, the
value bound to the cell's asset variable, and whether the create path ran. -/
structure CellRun where
  store : AssetStore
  bound : Data
  createRan : Bool
deriving DecidableEq, Repr

/-- `train_dataset_name = "text_generation_train_small"` from the source. -/
def train_dataset_name : String := "text_generation_train_small"

/-- `validation_dataset_name = "text_generation_validation_small"`. -/
def validation_dataset_name : String := "text_generation_validation_small"

/-- `dataset_version = "1"` from the source. -/
def dataset_version : String := "1"

/-- The `Data(path="./train.jsonl", …)` literal of the train cell. -/
def train_data : Data :=
  ⟨"./train.jsonl", "uri_file", "Training dataset", train_dataset_name, "1"⟩

/-- The `Data(path="./validation.jsonl", …)` literal of the validation
cell. -/
def validation_data : Data :=
  ⟨"./validation.jsonl", "uri_file", "Validation dataset", validation_dataset_name, "1"⟩

/-- The `Data(path="./sample_data/titanic.csv", …)` literal of the titanic
cell. -/
def titanic_data : Data :=
  ⟨"./sample_data/titanic.csv", "uri_file", "Titanic Data", "titanic", "1"⟩

/-- The train-dataset cell of the fine-tuning notebook:

    try:
        train_data_asset = workspace_ml_client.data.get(
            train_dataset_name, version=dataset_version)
    except:
        train_data = Data(path="./train.jsonl", …, name=train_dataset_name,
            version="1")
        train_data_asset = workspace_ml_client.data.create_or_update(train_data)

The `except` is bare: the error's kind is discarded. -/
def trainDataCell (envFault : Option PyError) (store : AssetStore) : CellRun :=
  match data_get envFault store train_dataset_name dataset_version with
  | .ok a => ⟨store, a, false⟩
  | .error _ =>
    let (store2, asset) := data_create_or_update store train_data
    ⟨store2, asset, true⟩

/-- The validation-dataset cell of the fine-tuning notebook; same shape as
the train cell, with the validation name and file. -/
def validationDataCell (envFault : Option PyError) (store : AssetStore) : CellRun :=
  match data_get envFault store validation_dataset_name dataset_version with
  | .ok a => ⟨store, a, false⟩
  | .error _ =>
    let (store2, asset) := data_create_or_update store validation_data
    ⟨store2, asset, true⟩

/-- The titanic cell of the Working-with-Data notebook:

    try:
        registered_data_asset = ml_client.data.get(name="titanic", version="1")
    except Exception as ex:
        my_data = Data(…, name="titanic", version="1")
        ml_client.data.create_or_update(my_data)
        registered_data_asset = ml_client.data.get(name="titanic", version="1")

The handler re-issues the get after the create; that second get is outside
the try block, so an error it raises propagates (`.error`).  `envFault2`
is the environmental fault, if any, at the time of the second get. -/
def titanicCell (envFault envFault2 : Option PyError) (store : AssetStore) :
    Except PyError CellRun :=
  match data_get envFault store "titanic" "1" with
  | .ok a => .ok ⟨store, a, false⟩
  | .error _ =>
    let (store2, _) := data_create_or_update store titanic_data
    match data_get envFault2 store2 "titanic" "1" with
    | .ok a => .ok ⟨store2, a, true⟩
    | .error e => .error e

theorem data_get_ok_name_version (envFault : Option PyError) (store : AssetStore)
    (n v : String) (a : Data) (h : data_get envFault store n v = .ok a) :
    a.name = n ∧ a.version = v := by
  unfold data_get at h
  cases envFault with
  | some e => exact absurd h (by simp)
  | none =>
    cases hf : store.find? (fun a => a.name == n && a.version == v) with
    | none => rw [hf] at h; exact absurd h (by simp)
    | some b =>
      rw [hf] at h
      injection h with h
      subst h
      have := List.find?_some hf
      simp only [Bool.and_eq_true, beq_iff_eq] at this
      exact this

theorem trainDataCell_spec (envFault : Option PyError) (store : AssetStore) :
    (getReturned (data_get envFault store train_dataset_name dataset_version) = true →
      (trainDataCell envFault store).createRan = false) ∧
    (getReturned (data_get envFault store train_dataset_name dataset_version) = false →
      (trainDataCell envFault store).createRan = true ∧
      train_data ∈ (trainDataCell envFault store).store) ∧
    (trainDataCell envFault store).bound.name = train_dataset_name ∧
    (trainDataCell envFault store).bound.version = dataset_version := by
  cases hg : data_get envFault store train_dataset_name dataset_version with
  | ok a =>
    have hnv := data_get_ok_name_version _ _ _ _ _ hg
    refine ⟨fun _ => ?_, fun hc => ?_, ?_, ?_⟩
    · simp [trainDataCell, hg]
    · exact absurd hc (by simp [getReturned])
    · simp [trainDataCell, hg, hnv.1]
    · simp [trainDataCell, hg, hnv.2]
  | error e =>
    refine ⟨fun hc => ?_, fun _ => ⟨?_, ?_⟩, ?_, ?_⟩
    · exact absurd hc (by simp [getReturned])
    · simp [trainDataCell, hg, data_create_or_update]
    · simp only [trainDataCell, hg, data_create_or_update]
      exact List.mem_cons_self _ _
    · simp [trainDataCell, hg, data_create_or_update]; rfl
    · simp [trainDataCell, hg, data_create_or_update]; rfl

theorem validationDataCell_spec (envFault : Option PyError) (store : AssetStore) :
    (getReturned (data_get envFault store validation_dataset_name dataset_version) = true →
      (validationDataCell envFault store).createRan = false) ∧
    (getReturned (data_get envFault store validation_dataset_name dataset_version) = false →
      (validationDataCell envFault store).createRan = true ∧
      validation_data ∈ (validationDataCell envFault store).store) ∧
    (validationDataCell envFault store).bound.name = validation_dataset_name ∧
    (validationDataCell envFault store).bound.version = dataset_version := by
  cases hg : data_get envFault store validation_dataset_name dataset_version with
  | ok a =>
    have hnv := data_get_ok_name_version _ _ _ _ _ hg
    refine ⟨fun _ => ?_, fun hc => ?_, ?_, ?_⟩
    · simp [validationDataCell, hg]
    · exact absurd hc (by simp [getReturned])
    · simp [validationDataCell, hg, hnv.1]
    · simp [validationDataCell, hg, hnv.2]
  | error e =>
    refine ⟨fun hc => ?_, fun _ => ⟨?_, ?_⟩, ?_, ?_⟩
    · exact absurd hc (by simp [getReturned])
    · simp [validationDataCell, hg, data_create_or_update]
    · simp only [validationDataCell, hg, data_create_or_update]
      exact List.mem_cons_self _ _
    · simp [validationDataCell, hg, data_create_or_update]; rfl
    · simp [validationDataCell, hg, data_create_or_update]; rfl

theorem titanicCell_error_get (envFault : Option PyError) (store : AssetStore)
    (e : PyError) (h : data_get envFault store "titanic" "1" = .error e) :
    titanicCell envFault none store =
      .ok ⟨(data_create_or_update store titanic_data).1, titanic_data, true⟩ := by
  unfold titanicCell
  rw [h]
  rfl

theorem titanicCell_spec (envFault : Option PyError) (store : AssetStore) :
    ∀ r, titanicCell envFault none store = .ok r →
      (getReturned (data_get envFault store "titanic" "1") = true →
        r.createRan = false) ∧
      (getReturned (data_get envFault store "titanic" "1") = false →
        r.createRan = true ∧ titanic_data ∈ r.store) ∧
      r.bound.name = "titanic" ∧ r.bound.version = "1" := by
  intro r hr
  cases hg : data_get envFault store "titanic" "1" with
  | ok a =>
    have hnv := data_get_ok_name_version _ _ _ _ _ hg
    simp only [titanicCell, hg] at hr
    injection hr with hr
    subst hr
    refine ⟨fun _ => rfl, fun hc => ?_, hnv.1, hnv.2⟩
    · exact absurd hc (by simp [getReturned])
  | error e =>
    rw [titanicCell_error_get envFault store e hg] at hr
    injection hr with hr
    subst hr
    refine ⟨fun hc => ?_, fun _ => ⟨rfl, ?_⟩, rfl, rfl⟩
    · exact absurd hc (by simp [getReturned])
    · simp only [data_create_or_update]
      exact List.mem_cons_self _ _

/-- C3: for each get-or-create cell (titanic, train, validation): when the
get returns without raising, the create path does not run; when the get
raises, the create path runs and registers the asset under the same name
and version; and in both branches the cell's bound variable refers to an
asset with that name and version (for the titanic cell, on every run that
completes without an uncaught exception). -/
theorem existence_checks_get_or_create (envFault : Option PyError)
    (store : AssetStore) :
    ((getReturned (data_get envFault store train_dataset_name dataset_version) = true →
        (trainDataCell envFault store).createRan = false) ∧
      (getReturned (data_get envFault store train_dataset_name dataset_version) = false →
        (trainDataCell envFault store).createRan = true ∧
        train_data ∈ (trainDataCell envFault store).store) ∧
      (trainDataCell envFault store).bound.name = train_dataset_name ∧
      (trainDataCell envFault store).bound.version = dataset_version) ∧
    ((getReturned (data_get envFault store validation_dataset_name dataset_version) = true →
        (validationDataCell envFault store).createRan = false) ∧
      (getReturned (data_get envFault store validation_dataset_name dataset_version) = false →
        (validationDataCell envFault store).createRan = true ∧
        validation_data ∈ (validationDataCell envFault store).store) ∧
      (validationDataCell envFault store).bound.name = validation_dataset_name ∧
      (validationDataCell envFault store).bound.version = dataset_version) ∧
    (∀ r, titanicCell envFault none store = .ok r →
      (getReturned (data_get envFault store "titanic" "1") = true →
        r.createRan = false) ∧
      (getReturned (data_get envFault store "titanic" "1") = false →
        r.createRan = true ∧ titanic_data ∈ r.store) ∧
      r.bound.name = "titanic" ∧ r.bound.version = "1") :=
  ⟨trainDataCell_spec envFault store, validationDataCell_spec envFault store,
    titanicCell_spec envFault store⟩

/-- C9: the dataset cells of the fine-tuning notebook use a bare `except`:
every kind of exception raised by the get — resource absence,
authentication failure, network failure alike — sends the cell down the
create path; in particular the create path runs on an authentication fault
even when the asset is present in the store (the same get without the
fault returns it), so the create path running does not imply the asset was
absent. -/
theorem bare_except_catches_every_error (e : PyError) (store : AssetStore) :
    (trainDataCell (some e) store).createRan = true ∧
    (validationDataCell (some e) store).createRan = true ∧
    (getReturned (data_get none [train_data] train_dataset_name dataset_version) = true ∧
      (trainDataCell (some PyError.authenticationError) [train_data]).createRan = true ∧
      PyError.authenticationError ≠ PyError.resourceNotFound) := by
  refine ⟨?_, ?_, by decide, ?_, by decide⟩
  · simp [trainDataCell, data_get, data_create_or_update]
  · simp [validationDataCell, data_get, data_create_or_update]
  · simp [trainDataCell, data_get, data_create_or_update]

/-! ## The two CI workflow definitions

`.github/workflows/train-fastai-mnist-mlproject-job.yml` and
`.github/workflows/tutorial-upl.yml`, embedded field by field.  A step is
either a `uses:` step with its `with:` arguments or a `run:` step with an
optional `working-directory:`. -/

structure WorkflowStep where
  stepName : String
  uses : Option String
  withArgs : List (String × String)
  run : Option String
  workingDirectory : Option String
deriving DecidableEq, Repr

/-- A `uses:` step. -/
def usesStep (n u : String) (args : List (String × String)) : WorkflowStep :=
  ⟨n, some u, args, none, none⟩

/-- A `run:` step. -/
def runStep (n cmd : String) : WorkflowStep :=
  ⟨n, none, [], some cmd, none⟩

/-- A `run:` step with a `working-directory:`. -/
def runStepIn (n cmd dir : String) : WorkflowStep :=
  ⟨n, none, [], some cmd, some dir⟩

structure Workflow where
  wfName : String
  onScheduleCron : List String
  onPullRequestBranches : List String
  onPullRequestPaths : List String
  steps : List WorkflowStep
deriving DecidableEq, Repr

/-- `.github/workflows/train-fastai-mnist-mlproject-job.yml`. -/
def trainFastaiMnistMlprojectJob : Workflow :=
  { wfName := "train-fastai-mnist-mlproject-job"
    onScheduleCron := ["0 0/2 * * *"]
    onPullRequestBranches := ["main"]
    onPullRequestPaths :=
      [ "workflows/train/fastai/mnist-mlproject/job.py"
      , ".github/workflows/train-fastai-mnist-mlproject-job.yml" ]
    steps :=
      [ usesStep "check out repo" "actions/checkout@v2" []
      , usesStep "setup python" "actions/setup-python@v2" [("python-version", "3.8")]
      , runStep "pip install" "pip install -r requirements.txt"
      , usesStep "azure login" "azure/login@v1" [("creds", "$\x7b\x7bsecrets.AZ_AE_CREDS\x7d\x7d")]
      , runStep "install azmlcli" "az extension add -n azure-cli-ml -y"
      , runStep "attach to workspace" "az ml folder attach -w default -g azureml-examples"
      , runStep "run workflow" "python workflows/train/fastai/mnist-mlproject/job.py" ] }

/-- `.github/workflows/tutorial-upl.yml`. -/
def tutorialUpl : Workflow :=
  { wfName := "tutorial-upl"
    onScheduleCron := ["0 */2 * * *"]
    onPullRequestBranches := ["main"]
    onPullRequestPaths :=
      [ "tutorials/using-pytorch-lightning/**"
      , ".github/workflows/tutorial-upl.yml" ]
    steps :=
      [ usesStep "check out repo" "actions/checkout@v2" []
      , usesStep "setup python" "actions/setup-python@v2" [("python-version", "3.8")]
      , runStep "pip install" "pip install -r requirements.txt"
      , usesStep "azure login" "azure/login@v1" [("creds", "$\x7b\x7bsecrets.AZ_AE_CREDS\x7d\x7d")]
      , runStep "install azmlcli"
          "az extension add -s https://azurecliext.blob.core.windows.net/release/azure_cli_ml-1.15.0-py3-none-any.whl -y"
      , runStep "attach to workspace" "az ml folder attach -w default -g azureml-examples"
      , runStepIn "run 1.train-single-node.ipynb"
          "papermill 1.train-single-node.ipynb - -k python"
          "tutorials/using-pytorch-lightning"
      , runStepIn "run 2.log-with-tensorboard.ipynb"
          "papermill 2.log-with-tensorboard.ipynb - -k python"
          "tutorials/using-pytorch-lightning"
      , runStepIn "run 3.log-with-mlflow.ipynb"
          "papermill 3.log-with-mlflow.ipynb - -k python"
          "tutorials/using-pytorch-lightning"
      , runStepIn "run 4.train-multi-node-ddp.ipynb"
          "papermill 4.train-multi-node-ddp.ipynb - -k python"
          "tutorials/using-pytorch-lightning" ] }

/-- The phases named by the spec's description of a CI job. -/
inductive CiPhase where
  | checkout
  | pythonSetup
  | pipInstall
  | cloudLogin
  | cliInstall
  | workspaceAttach
  | execution
deriving DecidableEq, Repr

/-- Executable string prefix test (reduces in the kernel). -/
def strPre (p s : String) : Bool := p.toList.isPrefixOf s.toList

/-- Executable string suffix test (reduces in the kernel). -/
def strSuf (p s : String) : Bool := p.toList.isSuffixOf s.toList

/-- Classify a workflow step into the spec's phases by its content. -/
def classifyStep (s : WorkflowStep) : Option CiPhase :=
  match s.uses with
  | some u =>
    if u = "actions/checkout@v2" then some .checkout
    else if u = "actions/setup-python@v2" then some .pythonSetup
    else if u = "azure/login@v1" then some .cloudLogin
    else none
  | none =>
    match s.run with
    | some cmd =>
      if strPre "pip install" cmd then some .pipInstall
      else if strPre "az extension add" cmd then some .cliInstall
      else if strPre "az ml folder attach" cmd then some .workspaceAttach
      else if strPre "python " cmd || strPre "papermill " cmd then some .execution
      else none
    | none => none

/-- The login step of a workflow injects its credential from a repository
secret when its `creds` argument is a `secrets.*` expression. -/
def credsFromSecret (w : Workflow) : Bool :=
  w.steps.any (fun s =>
    s.uses = some "azure/login@v1" &&
    s.withArgs.any (fun p =>
      p.1 = "creds" && (strPre "$\x7b\x7bsecrets." p.2 && strSuf "\x7d\x7d" p.2)))

/-- C5: each of the two CI workflows is triggered both by a cron schedule
and by pull requests to `main` restricted to its listed paths, its login
step takes its credential from a repository secret, and its steps classify,
in order, as: checkout, Python setup, pip dependency install, cloud login,
CLI tool/extension install, workspace attach, and finally one or more
script/notebook execution steps. -/
theorem ci_workflows_triggers_and_step_order :
    (trainFastaiMnistMlprojectJob.onScheduleCron = ["0 0/2 * * *"] ∧
      trainFastaiMnistMlprojectJob.onPullRequestBranches = ["main"] ∧
      trainFastaiMnistMlprojectJob.onPullRequestPaths =
        [ "workflows/train/fastai/mnist-mlproject/job.py"
        , ".github/workflows/train-fastai-mnist-mlproject-job.yml" ] ∧
      credsFromSecret trainFastaiMnistMlprojectJob = true ∧
      trainFastaiMnistMlprojectJob.steps.map classifyStep =
        [ some .checkout, some .pythonSetup, some .pipInstall, some .cloudLogin
        , some .cliInstall, some .workspaceAttach, some .execution ]) ∧
    (tutorialUpl.onScheduleCron = ["0 */2 * * *"] ∧
      tutorialUpl.onPullRequestBranches = ["main"] ∧
      tutorialUpl.onPullRequestPaths =
        [ "tutorials/using-pytorch-lightning/**"
        , ".github/workflows/tutorial-upl.yml" ] ∧
      credsFromSecret tutorialUpl = true ∧
      tutorialUpl.steps.map classifyStep =
        [ some .checkout, some .pythonSetup, some .pipInstall, some .cloudLogin
        , some .cliInstall, some .workspaceAttach
        , some .execution, some .execution, some .execution, some .execution ]) := by
  constructor
  · exact ⟨rfl, rfl, rfl, by decide, by decide⟩
  · exact ⟨rfl, rfl, rfl, by decide, by decide⟩

/-! ## The SDK-call order of the fine-tuning notebook

Each SDK call of the fine-tuning notebook is listed in top-to-bottom
execution order, with its code-cell index (position among the notebook's
code cells) and, when the call belongs to one of the stages named by the
spec's pipeline (authenticate → build job spec → submit → poll status →
retrieve registered model → deploy), that stage.  Calls outside the staged
pipeline (base-model lookup, dataset get-or-create, the raw HTTP inference
request) carry `none`. -/

inductive Stage where
  | auth
  | buildSpec
  | submit
  | poll
  | retrieveModel
  | deploy
deriving DecidableEq, Repr

/-- Pipeline position of each stage. -/
def stageRank : Stage → Nat
  | .auth => 0
  | .buildSpec => 1
  | .submit => 2
  | .poll => 3
  | .retrieveModel => 4
  | .deploy => 5

structure SdkCall where
  codeCell : Nat
  callee : String
  stage : Option Stage
deriving DecidableEq, Repr

/-- All SDK calls of the fine-tuning notebook in top-to-bottom order.
Code-cell indices: 0 = pip installs, 1 = credential/client setup,
2 = base-model get, 3 = recommended-sku lookup, 4 = train dataset cell,
5 = `train_data_asset.id`, 6 = validation dataset cell,
7 = `validation_data_asset.id`, 8 = `create_finetuning_job`,
9 = job submission, 10 = poll loop, 11 = failure check,
12–14 = registered-model retrieval, 15 = endpoint creation,
16 = inference-sku lookup, 17 = deployment creation, 18 = inference
request. -/
def finetuningSdkCalls : List SdkCall :=
  [ ⟨1, "DefaultAzureCredential", some .auth⟩
  , ⟨1, "credential.get_token", some .auth⟩
  , ⟨1, "MLClient.from_config", some .auth⟩
  , ⟨1, "MLClient", some .auth⟩
  , ⟨1, "MLClient (registry azureml-meta)", some .auth⟩
  , ⟨1, "workspace_ml_client._workspaces.get", some .auth⟩
  , ⟨2, "registry_ml_client.models.get", none⟩
  , ⟨4, "workspace_ml_client.data.get (train)", none⟩
  , ⟨4, "workspace_ml_client.data.create_or_update (train)", none⟩
  , ⟨6, "workspace_ml_client.data.get (validation)", none⟩
  , ⟨6, "workspace_ml_client.data.create_or_update (validation)", none⟩
  , ⟨8, "create_finetuning_job", some .buildSpec⟩
  , ⟨9, "workspace_ml_client.jobs.create_or_update", some .submit⟩
  , ⟨9, "workspace_ml_client.jobs.get", some .poll⟩
  , ⟨10, "workspace_ml_client.jobs.get (loop)", some .poll⟩
  , ⟨12, "created_job.outputs[registered_model]", none⟩
  , ⟨13, "workspace_ml_client.models.get (registered)", some .retrieveModel⟩
  , ⟨15, "workspace_ml_client.begin_create_or_update (endpoint)", some .deploy⟩
  , ⟨17, "workspace_ml_client.online_deployments.begin_create_or_update", some .deploy⟩
  , ⟨17, "workspace_ml_client.begin_create_or_update (endpoint traffic)", some .deploy⟩
  , ⟨18, "requests.post", none⟩ ]

/-- The staged calls of the notebook, in execution order. -/
def finetuningStageTrace : List Stage :=
  finetuningSdkCalls.filterMap (fun c => c.stage)

/-- C6: executed top to bottom, the fine-tuning notebook's staged SDK calls
occur in pipeline order — every authenticate/client call precedes the job
spec construction, which precedes the submission, which precedes every
status poll, which precedes the registered-model retrieval, which precedes
every deployment call: the stage ranks along the trace are monotone, and
each of the six stages does occur.  Also the calls are listed in
non-decreasing code-cell order (top-to-bottom execution). -/
theorem finetuning_notebook_stage_order :
    finetuningStageTrace.Pairwise (fun a b => stageRank a ≤ stageRank b) ∧
    (∀ st : Stage, st ∈ finetuningStageTrace) ∧
    finetuningSdkCalls.Pairwise (fun a b => a.codeCell ≤ b.codeCell) := by
  refine ⟨by decide, ?_, by decide⟩
  intro st
  cases st <;> decide

/-! ## Training / validation data format

The fine-tuning notebook consumes `./train.jsonl` and `./validation.jsonl`;
the files themselves are not part of the sources, but the notebook displays
a sample record.  A record is an ordered list of (field, value) pairs. -/

abbrev JsonlRecord := List (String × String)

/-- The field names of a record, in order. -/
def recordFields (r : JsonlRecord) : List String := r.map Prod.fst

/-- The sample record displayed in the fine-tuning notebook's
"Sample data" markdown cell: a record with the two fields `text` and
`ground_truth`. -/
def sampleTextGenRecord : JsonlRecord :=
  [ ("text", "Summarize the dialog.\n<dialog>: Amanda: I baked  cookies. Do you want some?\r\nJerry: Sure!\r\nAmanda: I\x27ll bring you tomorrow :-)\n<summary>: ")
  , ("ground_truth", "Amanda baked cookies and will bring Jerry some tomorrow.") ]

/-- Modelled from the spec: the actual `train.jsonl` and `validation.jsonl`
files consumed by the fine-tuning job are missing from the sources (only
the notebook that references them is present).  Per the spec they are
line-delimited JSON whose records have the fixed fields `text` and
`ground_truth`; a file (list of records) is well-formed iff every record
has exactly those two fields, in that order. -/
def wellFormedTextGenFile (f : List JsonlRecord) : Bool :=
  f.all (fun r => recordFields r == ["text", "ground_truth"])

/-- C7: the training/validation data records have exactly the two fixed
fields `text` and `ground_truth`: the notebook's displayed sample record
has exactly those fields, a file of such records is well-formed, and every
record of a well-formed file has exactly those fields. -/
theorem textgen_data_fields :
    recordFields sampleTextGenRecord = ["text", "ground_truth"] ∧
    wellFormedTextGenFile [sampleTextGenRecord] = true ∧
    (∀ f, wellFormedTextGenFile f = true →
      ∀ r ∈ f, recordFields r = ["text", "ground_truth"]) := by
  refine ⟨rfl, by decide, ?_⟩
  intro f hf r hr
  unfold wellFormedTextGenFile at hf
  rw [List.all_eq_true] at hf
  have := hf r hr
  rwa [beq_iff_eq] at this

/-! ## Error-handling structure of the try/except cells

Every SDK error the notebooks handle is handled in one of five try/except
cells (errors raised anywhere else propagate and end the run, so no other
call can be re-invoked after failing).  For each cell we record the SDK
calls of its try block and of its except handler (an identical string means
the same operation invoked on the same target), and whether the handler
contains any loop or sleep. -/

structure TryExceptCell where
  cellDesc : String
  tryCalls : List String
  handlerCalls : List String
  handlerLoops : Bool
  handlerSleeps : Bool
deriving DecidableEq, Repr

/-- The credential cell of the fine-tuning notebook. -/
def credentialTryExcept : TryExceptCell :=
  ⟨"finetuning credential cell"
  , ["DefaultAzureCredential()", "credential.get_token(management scope)"]
  , ["InteractiveBrowserCredential()"]
  , false, false⟩

/-- The workspace-client cell of the fine-tuning notebook. -/
def mlclientTryExcept : TryExceptCell :=
  ⟨"finetuning MLClient cell"
  , ["MLClient.from_config(credential)"]
  , ["MLClient(credential, subscription_id, resource_group_name, workspace_name)"]
  , false, false⟩

/-- The train-dataset cell of the fine-tuning notebook. -/
def trainTryExcept : TryExceptCell :=
  ⟨"finetuning train dataset cell"
  , ["data.get(text_generation_train_small, version=1)"]
  , ["data.create_or_update(train_data)"]
  , false, false⟩

/-- The validation-dataset cell of the fine-tuning notebook. -/
def validationTryExcept : TryExceptCell :=
  ⟨"finetuning validation dataset cell"
  , ["data.get(text_generation_validation_small, version=1)"]
  , ["data.create_or_update(validation_data)"]
  , false, false⟩

/-- The titanic cell of the Working-with-Data notebook: its handler calls
`create_or_update` and then re-issues the very get that failed. -/
def titanicTryExcept : TryExceptCell :=
  ⟨"titanic data asset cell"
  , ["data.get(name=titanic, version=1)"]
  , ["data.create_or_update(my_data)", "data.get(name=titanic, version=1)"]
  , false, false⟩

/-- All try/except cells of the two notebooks. -/
def allTryExceptCells : List TryExceptCell :=
  [ credentialTryExcept, mlclientTryExcept, trainTryExcept
  , validationTryExcept, titanicTryExcept ]

/-- `true` iff the handler re-invokes an operation of the try block (the
operation that just failed) on the same target. -/
def reinvokesFailedCall (c : TryExceptCell) : Bool :=
  c.tryCalls.any (fun k => c.handlerCalls.contains k)

/-- C8 counterexample: the claim "no SDK operation is ever re-invoked after
it fails" is false at the titanic cell of the Working-with-Data notebook:
its except handler re-issues `data.get(name="titanic", version="1")`, the
exact operation whose failure entered the handler. -/
theorem retry_free_counterexample :
    titanicTryExcept ∈ allTryExceptCells ∧
    reinvokesFailedCall titanicTryExcept = true := by
  refine ⟨by decide, by decide⟩

/-- C8 (amended): no except handler of either notebook contains a retry
loop, backoff sleep, or any other recovery; the only operation ever
re-invoked after failing is the titanic cell's get, re-issued exactly once
after the create, as part of that cell's create-path fallback. -/
theorem no_retry_loop_or_backoff :
    (∀ c ∈ allTryExceptCells,
      c.handlerLoops = false ∧ c.handlerSleeps = false ∧
      (reinvokesFailedCall c = true → c = titanicTryExcept)) ∧
    reinvokesFailedCall titanicTryExcept = true ∧
    titanicTryExcept.handlerCalls.count "data.get(name=titanic, version=1)" = 1 := by
  refine ⟨by decide, by decide, by decide⟩

/-! ## The final inference cell and the unassigned `auth_key`

The inference cell is (first `import requests`, then):

    url = f"..."                      -- reads endpoint
    payload = \x7b ... literals ... \x7d
    headers = \x7b"Content-Type": "application/json",
               "Authorization": f"\x7bauth_key\x7d"\x7d
    response = requests.post(url, json=payload, headers=headers)
    response.json()

Evaluating a name not bound in the environment raises `NameError` and
aborts the cell; statements run in order and `requests.post` is the only
HTTP request. -/

inductive InfStmt where
  | assignN (lhs : String) (reads : List String)
  | callPost (reads : List String)
deriving DecidableEq, Repr

/-- The statements of the inference cell, with the names each reads. -/
def inferenceCellStmts : List InfStmt :=
  [ .assignN "requests" []
  , .assignN "url" ["endpoint"]
  , .assignN "payload" []
  , .assignN "headers" ["auth_key"]
  , .callPost ["requests", "url", "payload", "headers"] ]

/-- Outcome of running the cell: completion, or a `NameError` on a name;
the `Bool` records whether `requests.post` was executed beforehand. -/
inductive InfOutcome where
  | completed (postSent : Bool)
  | nameError (missing : String) (postSent : Bool)
deriving DecidableEq, Repr

/-- Run a statement list in an environment of bound names. -/
def runInfStmts (env : List String) (sent : Bool) : List InfStmt → InfOutcome
  | [] => .completed sent
  | .assignN lhs reads :: rest =>
    match reads.find? (fun n => !(env.contains n)) with
    | some n => .nameError n sent
    | none => runInfStmts (lhs :: env) sent rest
  | .callPost reads :: rest =>
    match reads.find? (fun n => !(env.contains n)) with
    | some n => .nameError n sent
    | none => runInfStmts env true rest

/-- Run the inference cell from an environment. -/
def runInferenceCell (env : List String) : InfOutcome :=
  runInfStmts env false inferenceCellStmts

/-- Every name bound by some code cell of the fine-tuning notebook before
the inference cell, across all try/except branches: import-bound names
followed by assigned variables, in first-binding order. -/
def finetuningAssignedNames : List String :=
  [ "MLClient", "DefaultAzureCredential", "InteractiveBrowserCredential"
  , "credential", "workspace_ml_client", "registry_ml_client", "workspace"
  , "model_name", "model_to_finetune"
  , "AssetTypes", "Data"
  , "dataset_version", "train_dataset_name", "train_data", "train_data_asset"
  , "validation_dataset_name", "validation_data", "validation_data_asset"
  , "FineTuningTaskType", "create_finetuning_job", "uuid"
  , "guid", "short_guid", "display_name", "name", "output_model_name_prefix"
  , "experiment_name", "compute", "finetuning_job"
  , "created_job"
  , "time", "status"
  , "registered_model_output", "registered_model"
  , "sys", "re"
  , "ManagedOnlineEndpoint", "ManagedOnlineDeployment", "ProbeSettings"
  , "OnlineRequestSettings"
  , "sanitized_model_name_for_deployment", "online_endpoint_name", "endpoint"
  , "demo_deployment" ]

/-- C10: `auth_key` is never assigned by any cell of the fine-tuning
notebook; running the inference cell in the environment of every name the
notebook ever binds raises `NameError` on `auth_key` with no HTTP request
sent, and in any environment lacking `auth_key` the cell ends in a
`NameError` (on `auth_key`, or earlier on `endpoint`) before
`requests.post` runs. -/
theorem auth_key_nameerror_before_request :
    "auth_key" ∉ finetuningAssignedNames ∧
    runInferenceCell finetuningAssignedNames = .nameError "auth_key" false ∧
    (∀ env : List String, env.contains "auth_key" = false →
      runInferenceCell env = .nameError "auth_key" false ∨
      runInferenceCell env = .nameError "endpoint" false) := by
  refine ⟨by decide, by decide, ?_⟩
  intro env hk
  by_cases he : env.contains "endpoint" = true
  · left
    have f1 : List.find?
        (fun n => !(("requests" :: env).contains n)) ["endpoint"] = none := by
      have c1 : (("requests" :: env).contains "endpoint") = true := he
      rw [List.find?_cons_of_neg _ (by rw [c1]; decide), List.find?_nil]
    have f2 : List.find?
        (fun n => !(("payload" :: "url" :: "requests" :: env).contains n))
        ["auth_key"] = some "auth_key" := by
      have c2 : (("payload" :: "url" :: "requests" :: env).contains "auth_key")
          = false := hk
      exact List.find?_cons_of_pos _ (by rw [c2]; decide)
    show runInfStmts env false inferenceCellStmts = .nameError "auth_key" false
    rw [show runInfStmts env false inferenceCellStmts =
        runInfStmts ("requests" :: env) false
          [ .assignN "url" ["endpoint"], .assignN "payload" []
          , .assignN "headers" ["auth_key"]
          , .callPost ["requests", "url", "payload", "headers"] ] from rfl]
    rw [runInfStmts, f1]
    show runInfStmts ("payload" :: "url" :: "requests" :: env) false
        [ .assignN "headers" ["auth_key"]
        , .callPost ["requests", "url", "payload", "headers"] ]
      = .nameError "auth_key" false
    rw [runInfStmts, f2]
  · right
    have f1 : List.find?
        (fun n => !(("requests" :: env).contains n)) ["endpoint"]
        = some "endpoint" := by
      have c1 : (("requests" :: env).contains "endpoint") = false := by
        cases h' : env.contains "endpoint" with
        | false => exact h'
        | true => exact absurd h' he
      exact List.find?_cons_of_pos _ (by rw [c1]; decide)
    show runInfStmts env false inferenceCellStmts = .nameError "endpoint" false
    rw [show runInfStmts env false inferenceCellStmts =
        runInfStmts ("requests" :: env) false
          [ .assignN "url" ["endpoint"], .assignN "payload" []
          , .assignN "headers" ["auth_key"]
          , .callPost ["requests", "url", "payload", "headers"] ] from rfl]
    rw [runInfStmts, f1]

end AzuremlExamples
